import Mathlib

/-!
Verification of the A4_ZephyrRealTime firmware (src/src/main.c) against its
natural-language specification.

The development shallow-embeds the parts of the firmware that the claims
concern:

* the `IoModuleData` record guarded by the `rtdb` mutex (the Shared State
  Store),
* the per-byte command handling of `uart_callback` (the Command Dispatcher),
* the raw-to-derived conversion of `data_processing_thread` (the Reading
  Transformation Loop), modelled over exact rationals; the C code computes in
  32-bit floats, and for the inputs considered here the truncated integer
  result coincides (the intermediate values are far from the nearest
  truncation boundary relative to the float rounding error),
* the store write of `database_thread` (the Persistence Loop),
* the lock/hardware-access structure of `led_thread`, `button_thread` and
  `uart_callback`, as lists of atomic actions in source order,
* the receive re-arm requests issued by `main` and by the
  `UART_RX_DISABLED` branch of `uart_callback`.

C `uint8_t` cells are modelled as `Nat` (every write in scope keeps the value
below 256, so no truncation is needed), `int16_t`/`int` as `Int`, and the C
cast `(int)` on a real quantity as truncation toward zero.
-/

/-- `IoModuleData` (main.c lines 29-34): states of 4 LEDs, states of 4
buttons, the raw analog sample `an_raw` and the processed value `an_val`. -/
structure IoModuleData where
  led_state : Fin 4 → Nat
  button_state : Fin 4 → Nat
  an_raw : Int
  an_val : Int

/-- The store contents after `memset(&rtdb.data, 0, sizeof(rtdb.data))` in
`main` (line 413): everything zero. -/
def initData : IoModuleData :=
  { led_state := fun _ => 0, button_state := fun _ => 0, an_raw := 0, an_val := 0 }

/-- `SensorData` (main.c lines 47-50): the queue payload produced by
`data_processing_thread`.  The C field `temperature` is a `float` that only
ever holds the value of a C `(int)` cast (line 368); those integer values are
below 2^24 in magnitude for 16-bit raw inputs, hence exactly representable,
so the field is modelled as `Int`. -/
structure SensorData where
  raw_value : Int
  temperature : Int
deriving DecidableEq

/-- Truncation toward zero, the behaviour of the C cast `(int)` on a real
value. -/
def ctrunc (q : ℚ) : ℤ := if 0 ≤ q then ⌊q⌋ else ⌈q⌉

/-- `float voltage = (raw_value / 1023.0f) * 3.0f;` (main.c line 366),
as exact rational arithmetic. -/
def voltage (raw : ℤ) : ℚ := ((raw : ℚ) / 1023) * 3

/-- `data.temperature = (int)(60000 * (voltage - 1));` (main.c line 368):
the active scaling formula of `data_processing_thread`. -/
def derivedValue (raw : ℤ) : ℤ := ctrunc (60000 * (voltage raw - 1))

/-- The formula the specification states for the derived value
(`derived = k * (voltage - offset)` with `k = 60`, `offset = 1`); this is
the commented-out line 367 of main.c, kept here only to compare with the
active `derivedValue`. -/
def specDerivedValue (raw : ℤ) : ℤ := ctrunc (60 * (voltage raw - 1))

/-- One iteration body of `data_processing_thread` (main.c lines 365-370)
after dequeuing `raw`: both fields of the `SensorData` record are overwritten,
so the previous contents `_prev` of the C local `data` are irrelevant. -/
def dataProcessingStep (raw : ℤ) (_prev : SensorData) : SensorData :=
  { raw_value := raw, temperature := derivedValue raw }

/-- The critical section of `database_thread` (main.c lines 391-394): under
one lock acquisition, overwrite `an_raw` and `an_val` with the dequeued
reading's fields. -/
def databaseWrite (d : SensorData) (s : IoModuleData) : IoModuleData :=
  { s with an_raw := d.raw_value, an_val := d.temperature }

/-- Processing of one received byte `cmd` by `uart_callback` (main.c lines
146-174): the store update and the response transmitted for that byte
(`none` when the byte is ignored by the `continue` branch).  ASCII codes:
48 = the byte for zero, 49-52 = one..four, 53-56 = five..eight,
57 = nine. -/
def processCmd (cmd : Nat) (s : IoModuleData) : IoModuleData × Option String :=
  if h : 49 ≤ cmd ∧ cmd ≤ 52 then
    let led_idx : Fin 4 := ⟨cmd - 49, by omega⟩
    ({ s with led_state :=
        Function.update s.led_state led_idx (Nat.xor (s.led_state led_idx) 1) },
      some ("Toggle LED " ++ toString (cmd - 49 + 1) ++ " \r\n"))
  else if h : 53 ≤ cmd ∧ cmd ≤ 56 then
    let button_idx : Fin 4 := ⟨cmd - 53, by omega⟩
    (s, some ("Button " ++ toString (cmd - 53 + 1) ++ " state: "
        ++ toString (s.button_state button_idx) ++ "\r\n"))
  else if cmd = 57 then
    (s, some ("Raw sensor value: " ++ toString s.an_raw ++ "\r\n"))
  else if cmd = 48 then
    (s, some ("Processed sensor value: " ++ toString s.an_val ++ "  Celsius\r\n"))
  else
    (s, none)

/-- The `UART_RX_RDY` branch of `uart_callback`: process each byte of the
batch in order, collecting the transmitted responses. -/
def processBytes (bytes : List Nat) (s : IoModuleData) : IoModuleData × List String :=
  match bytes with
  | [] => (s, [])
  | c :: rest =>
    let step := processCmd c s
    let next := processBytes rest step.1
    (next.1, (step.2.toList) ++ next.2)

/-- An atomic operation on the Shared State Store, i.e. one critical section
of one thread: `dbWrite` is `database_thread`'s section, `toggleLed` and the
three reads are `uart_callback`'s sections, `btnUpdate` is `button_thread`'s
section (the store effect of one poll iteration that observed levels `obs`),
and `ledSyncRead` is `led_thread`'s section, which only reads `led_state`. -/
inductive StoreOp
  | dbWrite (d : SensorData)
  | toggleLed (i : Fin 4)
  | readButton (i : Fin 4)
  | readRaw
  | readVal
  | btnUpdate (obs : Fin 4 → Nat)
  | ledSyncRead

/-- The store transformation performed by one atomic operation. -/
def applyOp (op : StoreOp) (s : IoModuleData) : IoModuleData :=
  match op with
  | .dbWrite d => databaseWrite d s
  | .toggleLed i =>
      { s with led_state := Function.update s.led_state i (Nat.xor (s.led_state i) 1) }
  | .btnUpdate obs =>
      { s with button_state := fun i =>
          if obs i ≠ s.button_state i then obs i else s.button_state i }
  | _ => s

/-- Run a sequence of atomic store operations from a starting store. -/
def runOps (ops : List StoreOp) (s : IoModuleData) : IoModuleData :=
  ops.foldl (fun t op => applyOp op t) s

/-- A receive-arm request to the serial driver: which buffer, its size, and
the timeout.  `rx_buf` is the single receive buffer of the program. -/
structure ArmRequest where
  bufId : Nat
  bufSize : Nat
  timeoutMs : Nat
deriving DecidableEq

/-- The identity of the global `rx_buf` buffer. -/
def rxBufId : Nat := 0

/-- The original arming issued by `main` (line 437):
`uart_rx_enable(uart, rx_buf, sizeof(rx_buf), RECEIVE_TIMEOUT)` with
`RECEIVE_BUFF_SIZE = 10` and `RECEIVE_TIMEOUT = 100`. -/
def initialArm : ArmRequest := { bufId := rxBufId, bufSize := 10, timeoutMs := 100 }

/-- The re-arming issued by the `UART_RX_DISABLED` branch of `uart_callback`
(line 178): `uart_rx_enable(dev, rx_buf, sizeof(rx_buf), RECEIVE_TIMEOUT)`. -/
def disabledRearm : ArmRequest := { bufId := rxBufId, bufSize := 10, timeoutMs := 100 }

/-- The two states of the receive state machine. -/
inductive RxState
  | Armed
  | Disabled
deriving DecidableEq

/-- The events delivered to `uart_callback`. -/
inductive UartEventKind
  | rxRdy (bytes : List Nat)
  | rxDisabled
  | otherEvent
deriving DecidableEq

/-- The whole `uart_callback` as a transition function: given an event, the
receive state and the store, it returns the new receive state, the new store,
the responses transmitted, and the arm request issued (if any). -/
def uartCallbackModel (ev : UartEventKind) (st : RxState) (s : IoModuleData) :
    RxState × IoModuleData × List String × Option ArmRequest :=
  match ev with
  | .rxRdy bytes =>
      let r := processBytes bytes s
      (RxState.Armed, r.1, r.2, none)
  | .rxDisabled => (RxState.Armed, s, [], some disabledRearm)
  | .otherEvent => (st, s, [], none)

/-- One hardware access: a GPIO pin write, a GPIO pin read, a UART
transmission, or a UART receive-arm request. -/
inductive HwAct
  | gpioSet (i : Fin 4) (v : Nat)
  | gpioGet (i : Fin 4)
  | uartTx (out : String)
  | uartRxEnable (req : ArmRequest)
deriving DecidableEq

/-- One step of a thread body, for tracking what happens while the `rtdb`
lock is held: acquiring the lock, releasing it, or a hardware access. -/
inductive ThreadAct
  | lockAcq
  | lockRel
  | hw (a : HwAct)
deriving DecidableEq

/-- The GPIO writes performed inside `led_thread`'s critical section: one per
LED whose database state `db i` differs from the thread's shadow copy
`shadow i` (main.c lines 205-210). -/
def ledWrites (db shadow : Fin 4 → Nat) : List ThreadAct :=
  (List.finRange 4).flatMap fun i =>
    if db i ≠ shadow i then [ThreadAct.hw (HwAct.gpioSet i (db i))] else []

/-- One iteration of `led_thread` (main.c lines 203-213) as its sequence of
lock and hardware actions, in source order: lock, then the GPIO writes for the
changed LEDs — still under the lock — then unlock. -/
def ledThreadIter (db shadow : Fin 4 → Nat) : List ThreadAct :=
  [ThreadAct.lockAcq] ++ ledWrites db shadow ++ [ThreadAct.lockRel]

/-- One iteration of `button_thread` (main.c lines 233-267): lock, then a GPIO
read of every one of the four buttons — all under the lock — then unlock. -/
def buttonThreadIter : List ThreadAct :=
  [ThreadAct.lockAcq] ++
    (List.finRange 4).map (fun i => ThreadAct.hw (HwAct.gpioGet i)) ++
  [ThreadAct.lockRel]

/-- The handling of one received byte by `uart_callback` as its sequence of
lock and hardware actions: for a recognized byte, lock, a copy or toggle,
unlock, and only then the UART transmission of the response; for an ignored
byte, nothing. -/
def uartByteTrace (c : Nat) (s : IoModuleData) : List ThreadAct :=
  match (processCmd c s).2 with
  | some out => [ThreadAct.lockAcq, ThreadAct.lockRel, ThreadAct.hw (HwAct.uartTx out)]
  | none => []

/-- Auxiliary scan: given whether the lock is currently held, does the rest of
the trace perform a hardware access while the lock is held? -/
def hwLockedAux : Bool → List ThreadAct → Bool
  | _, [] => false
  | _, ThreadAct.lockAcq :: rest => hwLockedAux true rest
  | _, ThreadAct.lockRel :: rest => hwLockedAux false rest
  | held, ThreadAct.hw _ :: rest => held || hwLockedAux held rest

/-- Does the trace perform a hardware access while holding the `rtdb` lock
(starting with the lock not held)? -/
def hwUnderLock (tr : List ThreadAct) : Bool := hwLockedAux false tr

/-! ## Helper lemmas -/

/-- For a byte in the toggle range, `processCmd` is a toggle of the selected
LED together with the "Toggle LED n" response. -/
lemma processCmd_toggle (c : ℕ) (h1 : 49 ≤ c) (h2 : c ≤ 52) (s : IoModuleData) :
    processCmd c s =
      ({ s with led_state := (Function.update s.led_state ⟨c - 49, by omega⟩
          (Nat.xor (s.led_state ⟨c - 49, by omega⟩) 1)) },
        some ("Toggle LED " ++ toString (c - 49 + 1) ++ " \r\n")) := by
  unfold processCmd
  exact dif_pos ⟨h1, h2⟩

/-- The toggle command for LED `n` (byte `49 + n`) XORs `led_state n`
with 1. -/
lemma processCmd_toggle_led (n : Fin 4) (s : IoModuleData) :
    ((processCmd (49 + n.val) s).1).led_state n = Nat.xor (s.led_state n) 1 := by
  have hlt := n.isLt
  rw [processCmd_toggle (49 + n.val) (by omega) (by omega) s]
  have hidx : (⟨49 + n.val - 49, by omega⟩ : Fin 4) = n := by
    apply Fin.ext
    show 49 + n.val - 49 = n.val
    omega
  show Function.update s.led_state ⟨49 + n.val - 49, by omega⟩
      (Nat.xor (s.led_state ⟨49 + n.val - 49, by omega⟩) 1) n = Nat.xor (s.led_state n) 1
  rw [hidx, Function.update_same]

/-- Every atomic store operation either preserves the `(an_raw, an_val)` pair
or is a persistence write establishing it. -/
lemma applyOp_pair (op : StoreOp) (s : IoModuleData) :
    ((applyOp op s).an_raw = s.an_raw ∧ (applyOp op s).an_val = s.an_val) ∨
    (∃ d, op = StoreOp.dbWrite d ∧
        (applyOp op s).an_raw = d.raw_value ∧ (applyOp op s).an_val = d.temperature) := by
  cases op with
  | dbWrite d => exact Or.inr ⟨d, rfl, rfl, rfl⟩
  | toggleLed i => exact Or.inl ⟨rfl, rfl⟩
  | readButton i => exact Or.inl ⟨rfl, rfl⟩
  | readRaw => exact Or.inl ⟨rfl, rfl⟩
  | readVal => exact Or.inl ⟨rfl, rfl⟩
  | btnUpdate obs => exact Or.inl ⟨rfl, rfl⟩
  | ledSyncRead => exact Or.inl ⟨rfl, rfl⟩

/-- After any sequence of atomic store operations, the `(an_raw, an_val)` pair
is either the initial pair or the payload of a single `dbWrite` in the
sequence. -/
lemma runOps_pair (ops : List StoreOp) (s0 : IoModuleData) :
    ((runOps ops s0).an_raw = s0.an_raw ∧ (runOps ops s0).an_val = s0.an_val) ∨
    (∃ d, StoreOp.dbWrite d ∈ ops ∧
        (runOps ops s0).an_raw = d.raw_value ∧ (runOps ops s0).an_val = d.temperature) := by
  induction ops generalizing s0 with
  | nil => exact Or.inl ⟨rfl, rfl⟩
  | cons op rest ih =>
      have hrun : runOps (op :: rest) s0 = runOps rest (applyOp op s0) := rfl
      rcases ih (applyOp op s0) with ⟨hr, hv⟩ | ⟨d, hd, hr, hv⟩
      · rcases applyOp_pair op s0 with ⟨h1, h2⟩ | ⟨d, hdeq, h1, h2⟩
        · exact Or.inl ⟨by rw [hrun, hr, h1], by rw [hrun, hv, h2]⟩
        · refine Or.inr ⟨d, ?_, by rw [hrun, hr, h1], by rw [hrun, hv, h2]⟩
          rw [hdeq]
          exact List.mem_cons_self _ _
      · exact Or.inr ⟨d, List.mem_cons_of_mem _ hd,
          by rw [hrun]; exact hr, by rw [hrun]; exact hv⟩

/-- A nonempty block of hardware actions that starts while the lock is held
trips the under-lock detector. -/
lemma hwLockedAux_hw_block (L tail : List ThreadAct)
    (hL : ∀ a ∈ L, ∃ h, a = ThreadAct.hw h) (hne : L ≠ []) :
    hwLockedAux true (L ++ tail) = true := by
  cases L with
  | nil => exact absurd rfl hne
  | cons a L2 =>
      obtain ⟨h, rfl⟩ := hL a (List.mem_cons_self _ _)
      rfl

/-- Every element of `ledWrites` is a hardware action. -/
lemma ledWrites_all_hw (db shadow : Fin 4 → Nat) :
    ∀ a ∈ ledWrites db shadow, ∃ h, a = ThreadAct.hw h := by
  intro a ha
  rcases List.mem_flatMap.mp ha with ⟨j, _, haj⟩
  by_cases hj : db j ≠ shadow j
  · rw [if_pos hj] at haj
    rw [List.mem_singleton.mp haj]
    exact ⟨_, rfl⟩
  · rw [if_neg hj] at haj
    exact absurd haj (List.not_mem_nil a)

/-! ## Claim theorems -/

/-- Claim C1, counterexample: the claim says the Reading Transformation Loop
derives an engineering-unit value of approximately 30 for raw sample 512 using
`k = 60`; the active code (main.c line 368) uses `k = 60000`, and for raw
sample 512 it produces 30087, which is not within 1 of 30.  The spec's
`k = 60` formula (the commented-out line 367) would produce 30. -/
theorem C1_counterexample :
    derivedValue 512 = 30087 ∧ specDerivedValue 512 = 30 ∧
      ¬(29 ≤ derivedValue 512 ∧ derivedValue 512 ≤ 31) := by
  have h1 : derivedValue 512 = 30087 := by
    unfold derivedValue ctrunc voltage
    norm_num
  have h2 : specDerivedValue 512 = 30 := by
    unfold specDerivedValue ctrunc voltage
    norm_num
  refine ⟨h1, h2, ?_⟩
  rw [h1]
  decide

/-- Claim C1, amended: for a raw sample of 512, the Reading Transformation
Loop computes voltage = (512 / 1023) * 3.0 = 1536/1023 ≈ 1.502 and a derived
engineering-unit value of 30087, using the fixed linear formula
`derived = (int)(k * (voltage - offset))` with `k = 60000` and `offset = 1`. -/
theorem C1_amended :
    voltage 512 = 1536 / 1023 ∧
      derivedValue 512 = ctrunc (60000 * (voltage 512 - 1)) ∧
      derivedValue 512 = 30087 := by
  refine ⟨by norm_num [voltage], rfl, ?_⟩
  unfold derivedValue ctrunc voltage
  norm_num

/-- Claim C3, counterexample: on byte 48 (the zero command) the dispatcher's
response is not just "Processed sensor value: <value>" followed by CR LF — the
code (main.c line 169) appends "  Celsius" before the terminator. -/
theorem C3_counterexample :
    (processCmd 48 initData).2 = some "Processed sensor value: 0  Celsius\r\n" ∧
      (processCmd 48 initData).2 ≠ some "Processed sensor value: 0\r\n" := by
  refine ⟨by decide, by decide⟩

/-- Claim C3, amended: when the Command Dispatcher receives byte 48 (the zero
command), it reads `an_val` (processed_value), leaves the store unchanged, and
transmits exactly "Processed sensor value: <value>  Celsius" terminated by
carriage-return/line-feed. -/
theorem C3_amended (s : IoModuleData) :
    processCmd 48 s =
      (s, some ("Processed sensor value: " ++ toString s.an_val ++ "  Celsius\r\n")) :=
  rfl

/-- Claim C4: for every LED `n` and every number `N` of toggle commands for
that LED (byte `49 + n`, i.e. commands '1'..'4'), the LED's stored state
afterwards is its initial value XORed with 1, `N` times. -/
theorem C4_toggle_parity (n : Fin 4) (N : ℕ) (s : IoModuleData) :
    ((fun t => (processCmd (49 + n.val) t).1)^[N] s).led_state n =
      (fun v => Nat.xor v 1)^[N] (s.led_state n) := by
  induction N generalizing s with
  | zero => rfl
  | succ k ih =>
      simp only [Function.iterate_succ_apply]
      rw [ih ((processCmd (49 + n.val) s).1), processCmd_toggle_led]

/-- Claim C5: every atomic store operation other than the Persistence Loop's
`dbWrite` leaves `an_raw` and `an_val` unchanged, and `dbWrite` sets both from
one reading; consequently, after any sequence of atomic store operations the
`(an_raw, an_val)` pair is either the starting pair or the payload of a single
`dbWrite` of the sequence — never a mix of two different persistence
writes. -/
theorem C5_persistence_atomicity :
    (∀ (op : StoreOp) (s : IoModuleData),
        ((applyOp op s).an_raw = s.an_raw ∧ (applyOp op s).an_val = s.an_val) ∨
        (∃ d, op = StoreOp.dbWrite d ∧
            (applyOp op s).an_raw = d.raw_value ∧
            (applyOp op s).an_val = d.temperature)) ∧
    (∀ (ops : List StoreOp) (s0 : IoModuleData),
        ((runOps ops s0).an_raw = s0.an_raw ∧ (runOps ops s0).an_val = s0.an_val) ∨
        (∃ d, StoreOp.dbWrite d ∈ ops ∧
            (runOps ops s0).an_raw = d.raw_value ∧
            (runOps ops s0).an_val = d.temperature)) :=
  ⟨applyOp_pair, runOps_pair⟩

/-- Claim C6: a received byte outside the ASCII range 48..57 ('0'..'9')
produces no response and leaves the Shared State Store unchanged. -/
theorem C6_unrecognized_ignored (c : ℕ) (s : IoModuleData) (h : c < 48 ∨ 57 < c) :
    processCmd c s = (s, none) := by
  unfold processCmd
  rw [dif_neg (by omega), dif_neg (by omega), if_neg (by omega), if_neg (by omega)]

/-- Witness for C6: the unrecognized byte 120 ('x') on the initial store. -/
theorem C6_witness : processCmd 120 initData = (initData, none) :=
  C6_unrecognized_ignored 120 initData (by decide)

/-- Claim C7: the transformation is a deterministic pure function of the raw
value only — the previous contents of the thread's `SensorData` local are
irrelevant, and the output is exactly the raw value paired with
`derivedValue raw`. -/
theorem C7_deterministic (raw : ℤ) (d1 d2 : SensorData) :
    dataProcessingStep raw d1 = dataProcessingStep raw d2 ∧
      dataProcessingStep raw d1 = { raw_value := raw, temperature := derivedValue raw } :=
  ⟨rfl, rfl⟩

/-- Claim C8: after the Persistence Loop has written a reading whose raw field
is 700, the byte 57 ('9') command reads `an_raw` and transmits
"Raw sensor value: 700" terminated by CR LF, leaving the store unchanged. -/
theorem C8_raw_after_persist (s : IoModuleData) (d : SensorData)
    (h : d.raw_value = 700) :
    processCmd 57 (databaseWrite d s) =
      (databaseWrite d s, some "Raw sensor value: 700\r\n") := by
  unfold processCmd
  rw [dif_neg (by omega), dif_neg (by omega), if_pos rfl]
  have ha : (databaseWrite d s).an_raw = 700 := h
  rw [ha]
  have hs : "Raw sensor value: " ++ toString (700 : ℤ) ++ "\r\n"
      = "Raw sensor value: 700\r\n" := by decide
  rw [hs]

/-- Witness for C8: a concrete reading with raw field 700 persisted into the
initial store. -/
theorem C8_witness :
    processCmd 57 (databaseWrite { raw_value := 700, temperature := 30087 } initData) =
      (databaseWrite { raw_value := 700, temperature := 30087 } initData,
        some "Raw sensor value: 700\r\n") :=
  C8_raw_after_persist initData { raw_value := 700, temperature := 30087 } rfl

/-- Claim C9: on every "receive disabled" event, whatever the current receive
state, the dispatcher issues the re-arm request `disabledRearm`, which equals
the original arming request `initialArm` of `main` (same buffer, same size,
same timeout), and the state machine returns to Armed. -/
theorem C9_rearm_same (st : RxState) (s : IoModuleData) :
    uartCallbackModel UartEventKind.rxDisabled st s =
      (RxState.Armed, s, [], some disabledRearm) ∧ disabledRearm = initialArm :=
  ⟨rfl, rfl⟩

/-- Claim C2, counterexample: the LED Sync Loop's iteration performs a GPIO
write while holding the Store's lock (main.c line 207 lies between the lock at
line 204 and the unlock at line 211), and the Button Poll Loop reads the GPIO
lines while holding the lock (lines 238-259, between lock at 234 and unlock at
265) — contradicting "no I/O while holding it". -/
theorem C2_counterexample :
    hwUnderLock (ledThreadIter (fun _ => 1) (fun _ => 0)) = true ∧
    hwUnderLock buttonThreadIter = true := by
  refine ⟨by decide, by decide⟩

/-- Claim C2, amended: the Command Dispatcher performs no hardware I/O while
holding the Store's lock (it transmits only after unlocking), but the LED Sync
Loop drives the physical outputs while holding the lock whenever some desired
LED state differs from its shadow copy, and the Button Poll Loop always reads
the physical button lines while holding the lock. -/
theorem C2_amended_locking :
    (∀ (c : ℕ) (s : IoModuleData), hwUnderLock (uartByteTrace c s) = false) ∧
    hwUnderLock buttonThreadIter = true ∧
    (∀ (db shadow : Fin 4 → Nat) (i : Fin 4), db i ≠ shadow i →
        hwUnderLock (ledThreadIter db shadow) = true) := by
  refine ⟨?_, by decide, ?_⟩
  · intro c s
    unfold uartByteTrace
    cases (processCmd c s).2 with
    | none => rfl
    | some out => rfl
  · intro db shadow i hi
    have hmem : ThreadAct.hw (HwAct.gpioSet i (db i)) ∈ ledWrites db shadow := by
      unfold ledWrites
      refine List.mem_flatMap.mpr ⟨i, List.mem_finRange i, ?_⟩
      rw [if_pos hi]
      exact List.mem_singleton_self _
    have hne : ledWrites db shadow ≠ [] := List.ne_nil_of_mem hmem
    exact hwLockedAux_hw_block (ledWrites db shadow) [ThreadAct.lockRel]
      (ledWrites_all_hw db shadow) hne

/-- Witness for the amended C2: the dispatcher's trace for a toggle command is
lock-free at its transmission, and a changed LED (database 1, shadow 0) makes
the LED loop write GPIO under the lock. -/
theorem C2_amended_witness :
    hwUnderLock (uartByteTrace 49 initData) = false ∧
    hwUnderLock (ledThreadIter (fun _ => 1) (fun _ => 0)) = true :=
  ⟨C2_amended_locking.1 49 initData,
    C2_amended_locking.2.2 (fun _ => 1) (fun _ => 0) 0 (by decide)⟩

/-- Claim C10: processing a command byte in 49..52 ('1'..'4') toggles exactly
`led_state` at index `byte - 49` and changes nothing else in the store: the
other LED entries, all button entries, `an_raw` and `an_val` are unchanged. -/
theorem C10_toggle_frame (c : ℕ) (s : IoModuleData) (h1 : 49 ≤ c) (h2 : c ≤ 52) :
    (∀ j : Fin 4, j.val = c - 49 →
        ((processCmd c s).1).led_state j = Nat.xor (s.led_state j) 1) ∧
    (∀ j : Fin 4, j.val ≠ c - 49 →
        ((processCmd c s).1).led_state j = s.led_state j) ∧
    ((processCmd c s).1).button_state = s.button_state ∧
    ((processCmd c s).1).an_raw = s.an_raw ∧
    ((processCmd c s).1).an_val = s.an_val := by
  rw [processCmd_toggle c h1 h2 s]
  refine ⟨?_, ?_, rfl, rfl, rfl⟩
  · intro j hj
    have hidx : (⟨c - 49, by omega⟩ : Fin 4) = j := by
      apply Fin.ext
      show c - 49 = j.val
      omega
    show Function.update s.led_state ⟨c - 49, by omega⟩
        (Nat.xor (s.led_state ⟨c - 49, by omega⟩) 1) j = Nat.xor (s.led_state j) 1
    rw [hidx, Function.update_same]
  · intro j hj
    show Function.update s.led_state ⟨c - 49, by omega⟩
        (Nat.xor (s.led_state ⟨c - 49, by omega⟩) 1) j = s.led_state j
    apply Function.update_noteq
    intro he
    exact hj (by rw [he])

/-- Witness for C10: command byte 50 ('2') on the initial store leaves the
button states unchanged. -/
theorem C10_witness :
    ((processCmd 50 initData).1).button_state = initData.button_state :=
  (C10_toggle_frame 50 initData (by decide) (by decide)).2.2.1
